import Mathlib

/-!
Verification of the Gapp text editor (src/main.py), a PySide6 desktop text
editor.  The development shallowly embeds the file-operation handlers
(`FileMenu._open_file`, `MainWindow.save_file`, `MainWindow._save_as_file`,
`MainWindow.new_file`), the line-number gutter paint routine
(`LineNumberArea.paintEvent`), and the line-number toggle
(`TextEditor.toggle_line_numbers` / `TextEditor.update_margins`).

External effects are made explicit:
* the file system is an association list from path to content
  (`fsWrite` / `fsRead`);
* every call into the toolkit that can fail (file dialog, `open`/`read`,
  `open`/`write`) is passed in as an `Except String` outcome, the error
  string standing for `str(e)` of the raised Python exception;
* a file-dialog result is `Option String`, `none` standing for the empty
  path Python's truthiness test `if file_path:` rejects (cancelled dialog);
* Qt's `textChanged` signal is modelled by recomputing the status-bar file
  label at exactly the program points where the editor text is mutated
  (`setPlainText`, `clear`), before any statement that follows the mutation,
  matching the direct (synchronous) signal connection in `StatusBar`;
* each attempted raw-file open is recorded in an `ioLog` entry carrying the
  mode and the `encoding=` argument of the call site.
-/

namespace Gapp

/-- One block of text layout state kept by `TextEditor` (QTextEdit). -/
structure EditorState where
  text : String
  current_file_path : String
deriving DecidableEq, Repr

/-- File system model: newest write first, looked up by path. -/
def FS : Type := List (String × String)

instance : DecidableEq FS := by
  unfold FS
  infer_instance

/-- `open(path, "w", encoding="utf-8")` followed by `file.write(content)`. -/
def fsWrite (fs : FS) (path content : String) : FS :=
  (path, content) :: fs

/-- `open(path, "r", encoding="utf-8")` followed by `file.read()`; reading a
missing path raises (returns `.error`). -/
def fsRead (fs : FS) (path : String) : Except String String :=
  match List.lookup path fs with
  | some c => .ok c
  | none => .error ("No such file or directory: " ++ path)

/-- Mode of a raw file-I/O call site. -/
inductive RWMode where
  | read : RWMode
  | write : RWMode
deriving DecidableEq, Repr

/-- A raw file-I/O attempt: the mode, path, and the `encoding=` argument the
call site passes to `open`. -/
structure IOEvent where
  mode : RWMode
  path : String
  encoding : String
deriving DecidableEq, Repr

/-- The status-bar file label text: `current_file_path or "No file open"`
(`StatusBar.__init__` / `StatusBar._update_file_label`). -/
def labelFor (path : String) : String :=
  if path = "" then "No file open" else path

/-- Observable program state: editor, file system, status-bar file label
widget, last transient status-bar message, and the log of raw file-I/O
attempts. -/
structure World where
  editor : EditorState
  fs : FS
  fileLabel : String
  statusMessage : Option String
  ioLog : List IOEvent
deriving DecidableEq

/-- State after `MainWindow.__init__`: empty editor, no current file, label
initialised from `current_file_path or "No file open"`. -/
def initWorld : World :=
  { editor := { text := "", current_file_path := "" }
    fs := []
    fileLabel := labelFor ""
    statusMessage := none
    ioLog := [] }

/-- `FileMenu._open_file`.  The whole body is inside `try`; a dialog or read
exception is caught and shown as `f"Error opening file: {e}"`.  On success
`setPlainText(file.read())` fires `textChanged` (recomputing the file label
from the still-unassigned old path) before `current_file_path = file_path`,
then `f"Opened: {file_path}"` is shown. -/
def open_file (w : World) (dialog : Except String (Option String))
    (readOutcome : Except String String) : World :=
  match dialog with
  | .error e => { w with statusMessage := some ("Error opening file: " ++ e) }
  | .ok none => w
  | .ok (some p) =>
    match readOutcome with
    | .error e =>
      { w with statusMessage := some ("Error opening file: " ++ e)
               ioLog := ⟨.read, p, "utf-8"⟩ :: w.ioLog }
    | .ok content =>
      { w with editor := { text := content, current_file_path := p }
               fileLabel := labelFor w.editor.current_file_path
               statusMessage := some ("Opened: " ++ p)
               ioLog := ⟨.read, p, "utf-8"⟩ :: w.ioLog }

/-- `MainWindow._save_as_file` after the dialog returned `dialogPath`: on a
kept path, write the editor text (a write exception is caught inside the
inner `try` and shown as `f"Error saving file: {e}"`), then assign
`current_file_path`.  No text mutation occurs, so `textChanged` never fires
here. -/
def save_as_core (w : World) (dialogPath : Option String)
    (writeOutcome : Except String Unit) : World :=
  match dialogPath with
  | none => w
  | some p =>
    match writeOutcome with
    | .error e =>
      { w with statusMessage := some ("Error saving file: " ++ e)
               ioLog := ⟨.write, p, "utf-8"⟩ :: w.ioLog }
    | .ok _ =>
      { w with fs := fsWrite w.fs p w.editor.text
               editor := { w.editor with current_file_path := p }
               ioLog := ⟨.write, p, "utf-8"⟩ :: w.ioLog }

/-- `MainWindow._save_as_file` as invoked from the menu: the
`QFileDialog.getSaveFileName` call stands OUTSIDE the `try`, so a dialog
exception propagates out (`.error`); everything after the dialog is
`save_as_core`. -/
def save_as_file (w : World) (dialog : Except String (Option String))
    (writeOutcome : Except String Unit) : Except String World :=
  match dialog with
  | .error e => .error e
  | .ok dp => .ok (save_as_core w dp writeOutcome)

/-- `MainWindow.save_file`.  Inside `try`: with a non-empty
`current_file_path` the text is written there; otherwise `_save_as_file()`
is called, and any exception it lets escape (only the dialog can) is caught
by this outer handler as `f"Error saving file: {e}"`. -/
def save_file (w : World) (dialog : Except String (Option String))
    (writeOutcome : Except String Unit) : World :=
  if w.editor.current_file_path = "" then
    match save_as_file w dialog writeOutcome with
    | .ok w' => w'
    | .error e => { w with statusMessage := some ("Error saving file: " ++ e) }
  else
    match writeOutcome with
    | .error e =>
      { w with statusMessage := some ("Error saving file: " ++ e)
               ioLog := ⟨.write, w.editor.current_file_path, "utf-8"⟩ :: w.ioLog }
    | .ok _ =>
      { w with fs := fsWrite w.fs w.editor.current_file_path w.editor.text
               ioLog := ⟨.write, w.editor.current_file_path, "utf-8"⟩ :: w.ioLog }

/-- `MainWindow.new_file`.  Inside `try`: dialog, then `clear()` — which
mutates the text and fires `textChanged`, recomputing the file label from
the still-unassigned old path — then `current_file_path = file_path`.  A
dialog exception is shown as `f"Error creating new file: {e}"`.  No raw
file I/O happens here. -/
def new_file (w : World) (dialog : Except String (Option String)) : World :=
  match dialog with
  | .error e => { w with statusMessage := some ("Error creating new file: " ++ e) }
  | .ok none => w
  | .ok (some p) =>
    { w with editor := { text := "", current_file_path := p }
             fileLabel := labelFor w.editor.current_file_path }

theorem fsRead_fsWrite (fs : FS) (p c : String) :
    fsRead (fsWrite fs p c) p = .ok c := by
  simp [fsRead, fsWrite, List.lookup]

/-- C1: File I/O is a direct pass-through of raw text: saving the editor
text — via `save_file` to the non-empty current path, or via
`_save_as_file` to a dialog-chosen path — and then `_open_file`-ing that
same path restores the editor text unchanged; no transformation is applied
in between. -/
theorem save_then_open_roundtrip (w : World) (d : Except String (Option String))
    (q : String) (hp : w.editor.current_file_path ≠ "") :
    (open_file (save_file w d (.ok ())) (.ok (some w.editor.current_file_path))
        (fsRead (save_file w d (.ok ())).fs w.editor.current_file_path)).editor.text
      = w.editor.text
    ∧ (open_file (save_as_core w (some q) (.ok ())) (.ok (some q))
        (fsRead (save_as_core w (some q) (.ok ())).fs q)).editor.text
      = w.editor.text := by
  constructor
  · simp [save_file, hp, fsRead_fsWrite, open_file]
  · simp [save_as_core, fsRead_fsWrite, open_file]

/-- Witness for C1 at a concrete state: current file "a.txt", text "hello". -/
theorem save_then_open_roundtrip_witness :
    ({ initWorld with
        editor := { text := "hello", current_file_path := "a.txt" } } :
          World).editor.current_file_path ≠ ""
    ∧ ((open_file (save_file { initWorld with
          editor := { text := "hello", current_file_path := "a.txt" } } (.ok none) (.ok ()))
        (.ok (some "a.txt"))
        (fsRead (save_file { initWorld with
          editor := { text := "hello", current_file_path := "a.txt" } } (.ok none) (.ok ())).fs
          "a.txt")).editor.text
      = ({ initWorld with
          editor := { text := "hello", current_file_path := "a.txt" } } : World).editor.text
    ∧ (open_file (save_as_core { initWorld with
          editor := { text := "hello", current_file_path := "a.txt" } } (some "b.txt") (.ok ()))
        (.ok (some "b.txt"))
        (fsRead (save_as_core { initWorld with
          editor := { text := "hello", current_file_path := "a.txt" } } (some "b.txt") (.ok ())).fs
          "b.txt")).editor.text
      = ({ initWorld with
          editor := { text := "hello", current_file_path := "a.txt" } } : World).editor.text) :=
  ⟨by decide,
   save_then_open_roundtrip
     { initWorld with editor := { text := "hello", current_file_path := "a.txt" } }
     (.ok none) "b.txt" (by decide)⟩

/-- C2: every file operation is guarded by exception-to-status-bar-message
handling.  For every exception `e` raised during an operation's file I/O
(and for dialog exceptions wherever the dialog sits inside the `try`) the
handler shows a message naming the operation and `str(e)` on the status bar,
and the operation returns normally: `open_file`, `save_file` and `new_file`
are total into `World`, and `save_as_file` yields `.ok` for every write
exception (only its dialog, which performs no file I/O, sits outside its
`try`). -/
theorem file_ops_catch_exceptions (w : World) (p e : String)
    (ro : Except String String) (hp : w.editor.current_file_path ≠ "") :
    (open_file w (.ok (some p)) (.error e)).statusMessage
        = some ("Error opening file: " ++ e)
    ∧ (open_file w (.error e) ro).statusMessage
        = some ("Error opening file: " ++ e)
    ∧ (save_file w (.ok (some p)) (.error e)).statusMessage
        = some ("Error saving file: " ++ e)
    ∧ (save_file w (.error e) (.error e)).statusMessage
        = some ("Error saving file: " ++ e)
    ∧ save_as_file w (.ok (some p)) (.error e)
        = .ok { w with statusMessage := some ("Error saving file: " ++ e)
                       ioLog := ⟨.write, p, "utf-8"⟩ :: w.ioLog }
    ∧ (new_file w (.error e)).statusMessage
        = some ("Error creating new file: " ++ e) := by
  refine ⟨rfl, rfl, ?_, ?_, rfl, rfl⟩
  · simp [save_file, hp]
  · simp [save_file, hp]

/-- Witness for C2 at a concrete state with current file "a.txt". -/
theorem file_ops_catch_exceptions_witness :
    ({ initWorld with
        editor := { text := "x", current_file_path := "a.txt" } } :
          World).editor.current_file_path ≠ ""
    ∧ (open_file { initWorld with
          editor := { text := "x", current_file_path := "a.txt" } }
        (.ok (some "b.txt")) (.error "boom")).statusMessage
      = some ("Error opening file: " ++ "boom") :=
  ⟨by decide,
   (file_ops_catch_exceptions
     { initWorld with editor := { text := "x", current_file_path := "a.txt" } }
     "b.txt" "boom" (.ok "y") (by decide)).1⟩

/-- C3: every raw file read and write the program attempts passes the fixed
`encoding="utf-8"` to `open`: each operation only prepends `ioLog` entries
whose encoding field is "utf-8". -/
theorem all_io_is_utf8 (w : World) (d : Except String (Option String))
    (ro : Except String String) (wo : Except String Unit) (dp : Option String)
    (ev : IOEvent) :
    (ev ∈ (open_file w d ro).ioLog → ev ∈ w.ioLog ∨ ev.encoding = "utf-8")
    ∧ (ev ∈ (save_file w d wo).ioLog → ev ∈ w.ioLog ∨ ev.encoding = "utf-8")
    ∧ (ev ∈ (save_as_core w dp wo).ioLog → ev ∈ w.ioLog ∨ ev.encoding = "utf-8")
    ∧ (ev ∈ (new_file w d).ioLog → ev ∈ w.ioLog ∨ ev.encoding = "utf-8") := by
  have step : ∀ (p : String) (l : List IOEvent) (m : RWMode),
      ev ∈ (⟨m, p, "utf-8"⟩ : IOEvent) :: l → ev ∈ l ∨ ev.encoding = "utf-8" := by
    intro p l m hm
    rcases List.mem_cons.mp hm with h | h
    · exact .inr (by simp [h])
    · exact .inl h
  refine ⟨?_, ?_, ?_, ?_⟩
  · intro hm
    cases d with
    | error e => exact .inl hm
    | ok dp =>
      cases dp with
      | none => exact .inl hm
      | some p =>
        cases ro with
        | error e => exact step p w.ioLog .read hm
        | ok c => exact step p w.ioLog .read hm
  · intro hm
    by_cases hp : w.editor.current_file_path = ""
    · rw [save_file.eq_def, if_pos hp] at hm
      cases d with
      | error e => exact .inl hm
      | ok dp =>
        cases dp with
        | none => exact .inl hm
        | some p =>
          cases wo with
          | error e => exact step p w.ioLog .write hm
          | ok u => exact step p w.ioLog .write hm
    · rw [save_file.eq_def, if_neg hp] at hm
      cases wo with
      | error e => exact step _ w.ioLog .write hm
      | ok u => exact step _ w.ioLog .write hm
  · intro hm
    cases dp with
    | none => exact .inl hm
    | some p =>
      cases wo with
      | error e => exact step p w.ioLog .write hm
      | ok u => exact step p w.ioLog .write hm
  · intro hm
    cases d with
    | error e => exact .inl hm
    | ok dp =>
      cases dp with
      | none => exact .inl hm
      | some p => exact .inl hm

/-- Witness for C3: the read attempt a concrete successful open records has
encoding "utf-8". -/
theorem all_io_is_utf8_witness :
    (⟨RWMode.read, "a.txt", "utf-8"⟩ : IOEvent)
        ∈ (open_file initWorld (.ok (some "a.txt")) (.ok "hi")).ioLog
    ∧ ((⟨RWMode.read, "a.txt", "utf-8"⟩ : IOEvent) ∈ initWorld.ioLog
        ∨ (⟨RWMode.read, "a.txt", "utf-8"⟩ : IOEvent).encoding = "utf-8") :=
  ⟨by decide,
   (all_io_is_utf8 initWorld (.ok (some "a.txt")) (.ok "hi") (.ok ()) none
     ⟨RWMode.read, "a.txt", "utf-8"⟩).1 (by decide)⟩

/-- C8: `_open_file` is atomic on failure.  If the operation raises at any
point — the dialog call, the `open`, or the `read` — the editor state (its
text and `current_file_path` both) is exactly what it was before, because
`setPlainText` and the path assignment only run after the read succeeded.
The cancelled-dialog path also leaves the editor untouched. -/
theorem open_file_atomic_on_failure (w : World) (e p : String)
    (ro : Except String String) :
    (open_file w (.error e) ro).editor = w.editor
    ∧ (open_file w (.ok (some p)) (.error e)).editor = w.editor
    ∧ (open_file w (.ok none) ro).editor = w.editor :=
  ⟨rfl, rfl, rfl⟩

/-- One Qt text block (`QTextBlock`), as the gutter paint loop sees it: its
bounding-rect height and its `isVisible()` flag.  A document is a `List
Block`; the end of the list is the invalid block `QTextBlock.next()`
eventually returns. -/
structure Block where
  height : Int
  visible : Bool
deriving DecidableEq, Repr

/-- The repaint rectangle: `event.rect().top()` and `event.rect().bottom()`. -/
structure PaintEnv where
  rectTop : Int
  rectBottom : Int
deriving DecidableEq, Repr

/-- The `while` loop of `LineNumberArea.paintEvent`, lines 45–61: starting
at the current block with number `n` and vertical position `top`, it runs
while the block is valid and `top <= event.rect().bottom()`; a block that
`isVisible()` and whose `bottom >= event.rect().top()` gets
`str(block_number + 1)` drawn at height `top`; then the loop advances to
`block.next()`, slides `top` to the previous `bottom`, and increments the
number. -/
def paintLoop (env : PaintEnv) : List Block → Nat → Int → List (String × Int)
  | [], _, _ => []
  | b :: rest, n, top =>
    if top ≤ env.rectBottom then
      (if b.visible = true ∧ env.rectTop ≤ top + b.height
        then [(toString (n + 1), top)] else [])
        ++ paintLoop env rest (n + 1) (top + b.height)
    else []

/-- `LineNumberArea.paintEvent`: returns the drawn line-number strings with
their vertical positions.  When `show_line_numbers` is false it returns at
once and draws nothing; otherwise the loop starts at
`firstVisibleBlock()` (index `first` into the document), with
`block_number = first` and top edge `off`. -/
def paintEvent (show_line_numbers : Bool) (env : PaintEnv)
    (doc : List Block) (first : Nat) (off : Int) : List (String × Int) :=
  if show_line_numbers then paintLoop env (List.drop first doc) first off
  else []

/-- Modelled from the spec sentence for C4 ("renders line numbers aligned to
visible text blocks"): every block from the first visible one on that is
visible and intersects the repaint rectangle gets exactly the decimal
string of its block number plus one, at its vertical position, in block
order; no filtering by where the loop stopped. -/
def gutterSpec (env : PaintEnv) : List Block → Nat → Int → List (String × Int)
  | [], _, _ => []
  | b :: rest, n, top =>
    (if b.visible = true ∧ top ≤ env.rectBottom ∧ env.rectTop ≤ top + b.height
      then [(toString (n + 1), top)] else [])
      ++ gutterSpec env rest (n + 1) (top + b.height)

theorem gutterSpec_past_bottom (env : PaintEnv) (blocks : List Block)
    (hh : ∀ b ∈ blocks, 0 ≤ b.height) :
    ∀ (n : Nat) (top : Int), env.rectBottom < top →
      gutterSpec env blocks n top = [] := by
  induction blocks with
  | nil => intro n top _; rfl
  | cons b rest ih =>
    intro n top htop
    have hb : 0 ≤ b.height := hh b (List.mem_cons_self b rest)
    have hrest : ∀ x ∈ rest, 0 ≤ x.height :=
      fun x hx => hh x (List.mem_cons_of_mem b hx)
    have hnot : ¬(b.visible = true ∧ top ≤ env.rectBottom ∧ env.rectTop ≤ top + b.height) := by
      rintro ⟨-, hle, -⟩
      exact absurd hle (not_le.mpr htop)
    have htop' : env.rectBottom < top + b.height := lt_of_lt_of_le htop (by omega)
    simp [gutterSpec, hnot, ih hrest (n + 1) (top + b.height) htop']

theorem paintLoop_eq_gutterSpec (env : PaintEnv) (blocks : List Block)
    (hh : ∀ b ∈ blocks, 0 ≤ b.height) :
    ∀ (n : Nat) (top : Int),
      paintLoop env blocks n top = gutterSpec env blocks n top := by
  induction blocks with
  | nil => intro n top; rfl
  | cons b rest ih =>
    intro n top
    have hrest : ∀ x ∈ rest, 0 ≤ x.height :=
      fun x hx => hh x (List.mem_cons_of_mem b hx)
    by_cases htop : top ≤ env.rectBottom
    · rw [paintLoop, if_pos htop, gutterSpec, ih hrest (n + 1) (top + b.height)]
      have : (b.visible = true ∧ env.rectTop ≤ top + b.height)
          ↔ (b.visible = true ∧ top ≤ env.rectBottom ∧ env.rectTop ≤ top + b.height) := by
        constructor
        · rintro ⟨h1, h2⟩; exact ⟨h1, htop, h2⟩
        · rintro ⟨h1, -, h2⟩; exact ⟨h1, h2⟩
      rw [if_congr this rfl rfl]
    · rw [paintLoop, if_neg htop,
        gutterSpec_past_bottom env (b :: rest) hh n top (not_le.mp htop)]

/-- C4: with line numbers shown and non-negative block heights (what Qt's
layout provides), the gutter paint routine draws, for every block from the
first visible one on that is valid (in the document), `isVisible()`, and
intersects the repaint rectangle, exactly the decimal string of its block
number plus one — the first block shows "1" — in block order at the blocks'
vertical positions, and draws nothing else. -/
theorem paintEvent_renders_line_numbers (env : PaintEnv) (doc : List Block)
    (first : Nat) (off : Int) (hh : ∀ b ∈ doc, 0 ≤ b.height) :
    paintEvent true env doc first off
      = gutterSpec env (List.drop first doc) first off := by
  have hd : ∀ b ∈ List.drop first doc, 0 ≤ b.height :=
    fun b hb => hh b (List.mem_of_mem_drop hb)
  rw [paintEvent, if_pos rfl]
  exact paintLoop_eq_gutterSpec env (List.drop first doc) hd first off

/-- Witness for C4: a three-block document, the middle block hidden, the
rectangle cutting off after the second block. -/
theorem paintEvent_renders_line_numbers_witness :
    (∀ b ∈ [(⟨10, true⟩ : Block), ⟨10, false⟩, ⟨10, true⟩, ⟨10, true⟩], 0 ≤ b.height)
    ∧ paintEvent true ⟨0, 15⟩ [⟨10, true⟩, ⟨10, false⟩, ⟨10, true⟩, ⟨10, true⟩] 0 0
        = gutterSpec ⟨0, 15⟩
            (List.drop 0 [⟨10, true⟩, ⟨10, false⟩, ⟨10, true⟩, ⟨10, true⟩]) 0 0 :=
  ⟨by decide,
   paintEvent_renders_line_numbers ⟨0, 15⟩
     [⟨10, true⟩, ⟨10, false⟩, ⟨10, true⟩, ⟨10, true⟩] 0 0 (by decide)⟩

/-- The state of the gutter paint `while` loop between iterations: the
current block and its successors (`[]` is the invalid block), the current
`block_number`, the current `top`, and what has been drawn so far. -/
structure LoopState where
  rest : List Block
  blockNumber : Nat
  top : Int
  drawn : List (String × Int)
deriving DecidableEq, Repr

/-- One iteration of the gutter paint loop: `none` when the guard
`block.isValid() and top <= event.rect().bottom()` fails and the loop
exits; otherwise the body runs once (possibly drawing the current number)
and advances `block = block.next()`, `top = bottom`,
`block_number += 1`. -/
def loopStep (env : PaintEnv) (s : LoopState) : Option LoopState :=
  match s.rest with
  | [] => none
  | b :: rest =>
    if s.top ≤ env.rectBottom then
      some { rest := rest
             blockNumber := s.blockNumber + 1
             top := s.top + b.height
             drawn := s.drawn ++
               (if b.visible = true ∧ env.rectTop ≤ s.top + b.height
                 then [(toString (s.blockNumber + 1), s.top)] else []) }
    else none

/-- Run at most `n` iterations of the gutter paint loop, stopping early when
the guard fails. -/
def runSteps (env : PaintEnv) : Nat → LoopState → LoopState
  | 0, s => s
  | n + 1, s =>
    match loopStep env s with
    | none => s
    | some s' => runSteps env n s'

theorem loopStep_none_iff (env : PaintEnv) (s : LoopState) :
    loopStep env s = none ↔ (s.rest = [] ∨ env.rectBottom < s.top) := by
  cases h : s.rest with
  | nil => simp [loopStep, h]
  | cons b rest =>
    by_cases htop : s.top ≤ env.rectBottom
    · simp [loopStep, h, htop]
    · simp [loopStep, h, htop, not_le.mp htop]

theorem runSteps_terminates (env : PaintEnv) :
    ∀ (blocks : List Block) (n : Nat) (top : Int) (drawn : List (String × Int)),
      loopStep env (runSteps env blocks.length ⟨blocks, n, top, drawn⟩) = none := by
  intro blocks
  induction blocks with
  | nil => intro n top drawn; rfl
  | cons b rest ih =>
    intro n top drawn
    by_cases htop : top ≤ env.rectBottom
    · have hstep : loopStep env ⟨b :: rest, n, top, drawn⟩
          = some { rest := rest, blockNumber := n + 1, top := top + b.height
                   drawn := drawn ++
                     (if b.visible = true ∧ env.rectTop ≤ top + b.height
                       then [(toString (n + 1), top)] else []) } := by
        simp [loopStep, htop]
      rw [List.length_cons, runSteps, hstep]
      exact ih (n + 1) (top + b.height) _
    · have hstep : loopStep env ⟨b :: rest, n, top, drawn⟩ = none := by
        simp [loopStep, htop]
      rw [List.length_cons, runSteps, hstep]
      exact hstep

/-- C6: the gutter's paint loop is driven one block per iteration and
terminates.  Each iteration that runs advances to the next block (the
remaining block list shrinks by exactly one) and increments the drawn
number by exactly one; the loop stops exactly when the block becomes
invalid or its top exceeds the repaint rectangle's bottom; and for every
finite document and every repaint rectangle, running at most as many
iterations as there are remaining blocks reaches the exit. -/
theorem paint_loop_one_block_per_step_and_terminates (env : PaintEnv)
    (s s' : LoopState) (hstep : loopStep env s = some s') :
    (s'.rest.length + 1 = s.rest.length ∧ s'.blockNumber = s.blockNumber + 1)
    ∧ (∀ t : LoopState, loopStep env t = none ↔ (t.rest = [] ∨ env.rectBottom < t.top))
    ∧ (∀ (blocks : List Block) (n : Nat) (top : Int) (drawn : List (String × Int)),
        loopStep env (runSteps env blocks.length ⟨blocks, n, top, drawn⟩) = none) := by
  refine ⟨?_, loopStep_none_iff env, runSteps_terminates env⟩
  cases hr : s.rest with
  | nil => simp [loopStep, hr] at hstep
  | cons b rest =>
    by_cases htop : s.top ≤ env.rectBottom
    · simp only [loopStep, hr, if_pos htop, Option.some.injEq] at hstep
      subst hstep
      simp [hr]
    · simp only [loopStep, hr, if_neg htop] at hstep
      exact absurd hstep (by simp)

/-- Witness for C6: one concrete iteration on a two-block document. -/
theorem paint_loop_one_block_per_step_and_terminates_witness :
    loopStep ⟨0, 25⟩ ⟨[⟨10, true⟩, ⟨12, true⟩], 0, 0, []⟩
        = some ⟨[⟨12, true⟩], 1, 10, [("1", 0)]⟩
    ∧ (((⟨[⟨12, true⟩], 1, 10, [("1", 0)]⟩ : LoopState).rest.length + 1
          = ([(⟨10, true⟩ : Block), ⟨12, true⟩].length)
        ∧ (⟨[⟨12, true⟩], 1, 10, [("1", 0)]⟩ : LoopState).blockNumber = 0 + 1)
      ∧ (∀ t : LoopState, loopStep ⟨0, 25⟩ t = none ↔ (t.rest = [] ∨ (25 : Int) < t.top))
      ∧ (∀ (blocks : List Block) (n : Nat) (top : Int) (drawn : List (String × Int)),
          loopStep ⟨0, 25⟩ (runSteps ⟨0, 25⟩ blocks.length ⟨blocks, n, top, drawn⟩) = none)) :=
  ⟨by decide,
   paint_loop_one_block_per_step_and_terminates ⟨0, 25⟩
     ⟨[⟨10, true⟩, ⟨12, true⟩], 0, 0, []⟩ ⟨[⟨12, true⟩], 1, 10, [("1", 0)]⟩ (by decide)⟩

/-- The line-number-related state of `TextEditor` and its gutter widget:
the `show_line_numbers` flag, the left viewport margin set by
`setViewportMargins`, the gutter's `setVisible` state, and the gutter's
current width (`line_number_area.width()`). -/
structure TEState where
  show_line_numbers : Bool
  viewportMarginLeft : Nat
  gutterVisible : Bool
  gutterWidth : Nat
deriving DecidableEq, Repr

/-- `TextEditor.update_margins`: with line numbers on, the left viewport
margin becomes the gutter's width, otherwise 0; the gutter's visibility is
set to the flag. -/
def update_margins (s : TEState) : TEState :=
  { s with
    viewportMarginLeft := if s.show_line_numbers then s.gutterWidth else 0
    gutterVisible := s.show_line_numbers }

/-- `TextEditor.toggle_line_numbers`: negate the flag, then
`update_margins` (the trailing `line_number_area.update()` only requests a
repaint and changes no state). -/
def toggle_line_numbers (s : TEState) : TEState :=
  update_margins { s with show_line_numbers := !s.show_line_numbers }

/-- `LineNumberArea.update_width` (lines 63–65), as connected to the
document's `blockCountChanged` signal (line 77):
`setFixedWidth(self._calculate_width())` changes the gutter's width to the
new digit-dependent value but does NOT re-run `update_margins`, so the
viewport margin keeps its old value. -/
def update_width (s : TEState) (newWidth : Nat) : TEState :=
  { s with gutterWidth := newWidth }

/-- Margin/visibility consistency as `update_margins` leaves it.  It is NOT
an invariant of all reachable states: `blockCountChanged` → `update_width`
changes the gutter width without re-running `update_margins`, leaving a
state whose margin is the old width. -/
def marginsConsistent (s : TEState) : Prop :=
  s.gutterVisible = s.show_line_numbers
  ∧ s.viewportMarginLeft = (if s.show_line_numbers then s.gutterWidth else 0)

instance (s : TEState) : Decidable (marginsConsistent s) := by
  unfold marginsConsistent
  infer_instance

theorem update_margins_consistent (s : TEState) :
    marginsConsistent (update_margins s) := by
  constructor <;> rfl

/-- C5: invoking the view toggle flips `show_line_numbers`; after the
toggle, whenever the flag is false the gutter's `paintEvent` draws nothing
and the viewport's left margin is 0, and whenever it is true the gutter is
visible and the viewport's left margin equals the gutter's width. -/
theorem toggle_flips_and_sets_margins (s : TEState) (env : PaintEnv)
    (doc : List Block) (first : Nat) (off : Int) :
    (toggle_line_numbers s).show_line_numbers = !s.show_line_numbers
    ∧ ((toggle_line_numbers s).show_line_numbers = false →
        paintEvent (toggle_line_numbers s).show_line_numbers env doc first off = []
        ∧ (toggle_line_numbers s).viewportMarginLeft = 0)
    ∧ ((toggle_line_numbers s).show_line_numbers = true →
        (toggle_line_numbers s).gutterVisible = true
        ∧ (toggle_line_numbers s).viewportMarginLeft
            = (toggle_line_numbers s).gutterWidth) := by
  refine ⟨rfl, ?_, ?_⟩
  · intro hoff
    constructor
    · rw [hoff, paintEvent, if_neg (by simp)]
    · simp only [toggle_line_numbers, update_margins] at hoff ⊢
      simp [hoff]
  · intro hon
    constructor
    · simp only [toggle_line_numbers, update_margins] at hon ⊢
      simp [hon]
    · simp only [toggle_line_numbers, update_margins] at hon ⊢
      simp [hon]

/-- Witness for C5, exercising both branches: toggling from on lands in the
draws-nothing/zero-margin branch, toggling from off lands in the
visible/full-width branch. -/
theorem toggle_flips_and_sets_margins_witness :
    ((toggle_line_numbers ⟨true, 42, true, 42⟩).show_line_numbers
        = !(true : Bool)
      ∧ ((toggle_line_numbers ⟨true, 42, true, 42⟩).show_line_numbers = false →
          paintEvent (toggle_line_numbers ⟨true, 42, true, 42⟩).show_line_numbers
              ⟨0, 15⟩ [⟨10, true⟩] 0 0 = []
          ∧ (toggle_line_numbers ⟨true, 42, true, 42⟩).viewportMarginLeft = 0))
    ∧ ((toggle_line_numbers ⟨false, 0, false, 42⟩).show_line_numbers = true →
        (toggle_line_numbers ⟨false, 0, false, 42⟩).gutterVisible = true
        ∧ (toggle_line_numbers ⟨false, 0, false, 42⟩).viewportMarginLeft
            = (toggle_line_numbers ⟨false, 0, false, 42⟩).gutterWidth) :=
  ⟨⟨(toggle_flips_and_sets_margins ⟨true, 42, true, 42⟩ ⟨0, 15⟩ [⟨10, true⟩] 0 0).1,
    (toggle_flips_and_sets_margins ⟨true, 42, true, 42⟩ ⟨0, 15⟩ [⟨10, true⟩] 0 0).2.1⟩,
   (toggle_flips_and_sets_margins ⟨false, 0, false, 42⟩ ⟨0, 15⟩ [⟨10, true⟩] 0 0).2.2⟩

/-- Counterexample to C9 as stated ("for every starting state, invoking it
twice restores … the viewport margins").  A reachable state refutes it:
start from the consistent state `update_margins ⟨true, 0, true, 42⟩`
(line numbers on, margin 42 = gutter width), then let a block-count change
run `update_width` to width 50 — the margin stays 42.  Double-toggling
from there sets the viewport margin to the current width 50, not back to
42, so the state is not restored. -/
theorem toggle_involution_width_counterexample :
    (update_width (update_margins ⟨true, 0, true, 42⟩) 50).viewportMarginLeft = 42
    ∧ (toggle_line_numbers (toggle_line_numbers
        (update_width (update_margins ⟨true, 0, true, 42⟩) 50))).viewportMarginLeft
        = 50
    ∧ toggle_line_numbers (toggle_line_numbers
          (update_width (update_margins ⟨true, 0, true, 42⟩) 50))
        ≠ update_width (update_margins ⟨true, 0, true, 42⟩) 50 := by
  refine ⟨rfl, rfl, ?_⟩
  decide

/-- C9 as amended: invoking `toggle_line_numbers` twice always restores
`show_line_numbers`; it restores the gutter's visibility and the viewport
margins too on every margin-consistent starting state (the states
`update_margins` leaves, which a single toggle re-establishes) — but not
on every state: once `blockCountChanged` → `update_width` has changed the
gutter's width without re-running `update_margins`, a double toggle sets
the viewport margin to the NEW gutter width rather than restoring the
original margin. -/
theorem toggle_line_numbers_involutive_amended (t : TEState) (w : Nat) :
    (toggle_line_numbers (toggle_line_numbers t)).show_line_numbers
        = t.show_line_numbers
    ∧ (marginsConsistent t →
        toggle_line_numbers (toggle_line_numbers t) = t
        ∧ marginsConsistent (toggle_line_numbers t))
    ∧ (toggle_line_numbers (toggle_line_numbers (update_width t w))).viewportMarginLeft
        = (if t.show_line_numbers then w else 0) := by
  refine ⟨?_, ?_, ?_⟩
  · cases t with
    | mk flag margin vis width =>
      simp [toggle_line_numbers, update_margins, Bool.not_not]
  · intro h
    obtain ⟨hv, hm⟩ := h
    refine ⟨?_, update_margins_consistent _⟩
    cases t with
    | mk flag margin vis width =>
      simp only [toggle_line_numbers, update_margins, Bool.not_not] at *
      cases flag <;> simp_all
  · cases t with
    | mk flag margin vis width =>
      cases flag <;>
        simp [toggle_line_numbers, update_margins, update_width, Bool.not_not]

/-- Witness for C9's amended theorem at the initial editor state (flag on,
margin 42 = width), with a width change to 50. -/
theorem toggle_line_numbers_involutive_amended_witness :
    ((toggle_line_numbers (toggle_line_numbers ⟨true, 42, true, 42⟩)).show_line_numbers
        = (⟨true, 42, true, 42⟩ : TEState).show_line_numbers)
    ∧ (marginsConsistent ⟨true, 42, true, 42⟩
      ∧ (toggle_line_numbers (toggle_line_numbers ⟨true, 42, true, 42⟩)
            = (⟨true, 42, true, 42⟩ : TEState)
        ∧ marginsConsistent (toggle_line_numbers ⟨true, 42, true, 42⟩)))
    ∧ (toggle_line_numbers (toggle_line_numbers
          (update_width ⟨true, 42, true, 42⟩ 50))).viewportMarginLeft
        = (if (⟨true, 42, true, 42⟩ : TEState).show_line_numbers then 50 else 0) :=
  ⟨(toggle_line_numbers_involutive_amended ⟨true, 42, true, 42⟩ 50).1,
   ⟨by decide,
    (toggle_line_numbers_involutive_amended ⟨true, 42, true, 42⟩ 50).2.1 (by decide)⟩,
   (toggle_line_numbers_involutive_amended ⟨true, 42, true, 42⟩ 50).2.2⟩

/-- What `TextEditor.__init__` configures on the widget. -/
structure TextEditorInit where
  current_file_path : String
  show_line_numbers : Bool
  undoRedoEnabled : Bool
deriving DecidableEq, Repr

/-- `TextEditor.__init__` (lines 71–80): empty current path, line numbers
on, and `setUndoRedoEnabled(True)` — the toolkit widget's built-in
undo/redo. -/
def textEditorInit : TextEditorInit :=
  { current_file_path := ""
    show_line_numbers := true
    undoRedoEnabled := true }

/-- `needle` occurs as a contiguous run at the head of `hay`. -/
def startsWithChars : List Char → List Char → Bool
  | [], _ => true
  | _ :: _, [] => false
  | a :: as, b :: bs => a == b && startsWithChars as bs

/-- `needle` occurs as a contiguous run anywhere in `hay`. -/
def hasSubChars (needle : List Char) : List Char → Bool
  | [] => needle.isEmpty
  | c :: cs => startsWithChars needle (c :: cs) || hasSubChars needle cs

/-- `needle` is a substring of `hay`. -/
def strContains (hay needle : String) : Bool :=
  hasSubChars needle.toList hay.toList

/-- Every method (def) the program itself defines, per class, transcribed
from src/main.py. -/
def programMethods : List String :=
  ["__init__", "_calculate_width", "paintEvent", "update_width",
   "update_margins", "toggle_line_numbers", "resizeEvent",
   "_update_file_label", "_setup_actions", "_open_file", "_save_file",
   "_save_as_file", "_setup_menus", "_create_about_menu",
   "_show_about_dialog", "init_ui", "_setup_shortcuts", "save_file",
   "new_file", "main"]

/-- C7: undo and redo are delegated entirely to the toolkit widget:
`TextEditor.__init__` enables the widget's built-in support
(`setUndoRedoEnabled(True)`), and no method the program defines mentions
undo, redo, or history — the program has no undo logic of its own. -/
theorem undo_redo_delegated_to_toolkit :
    textEditorInit.undoRedoEnabled = true
    ∧ (programMethods.all (fun m =>
        !(strContains m "undo" || strContains m "redo"
          || strContains m "history"))) = true := by
  constructor
  · rfl
  · decide

/-- Counterexample to C10 as stated.  `new_file` does change the text:
`clear()` fires `textChanged`, whose handler recomputes the file label from
`current_file_path` — which open assigned after its own `textChanged`
fired.  Concretely: from the initial state, successfully opening "a.txt"
leaves the label at "No file open" (the fire preceded the path
assignment); a subsequent successful `new_file` to "b.txt" then recomputes
the label to "a.txt" during `clear()` — the displayed label CHANGES, so
`new_file` does not leave it unchanged. -/
theorem new_file_changes_label_counterexample :
    (open_file initWorld (.ok (some "a.txt")) (.ok "hello")).fileLabel
        = "No file open"
    ∧ (new_file (open_file initWorld (.ok (some "a.txt")) (.ok "hello"))
          (.ok (some "b.txt"))).fileLabel = "a.txt"
    ∧ (new_file (open_file initWorld (.ok (some "a.txt")) (.ok "hello"))
          (.ok (some "b.txt"))).fileLabel
        ≠ (open_file initWorld (.ok (some "a.txt")) (.ok "hello")).fileLabel := by
  refine ⟨rfl, rfl, ?_⟩
  decide

/-- C10 as amended: the status bar's file label is recomputed only when the
editor's `textChanged` signal fires (to `current_file_path` if non-empty,
else "No file open").  A Save As — successful or not — and a `save_file`
perform no text mutation and leave the displayed label unchanged until the
next text change, and so do a failed or cancelled open and a failed or
cancelled `new_file`; but a successful `new_file` clears the text, firing
`textChanged` before the new path is assigned, so it recomputes the label
from the PREVIOUS path (possibly changing the display, never to the newly
assigned path); a successful open likewise leaves the label computed from
the pre-open path. -/
theorem file_label_only_on_textChanged (w : World) (p e : String)
    (d : Except String (Option String)) (dp : Option String)
    (ro : Except String String) (wo : Except String Unit) (w' : World)
    (hsa : save_as_file w d wo = .ok w') :
    w'.fileLabel = w.fileLabel
    ∧ (save_as_core w dp wo).fileLabel = w.fileLabel
    ∧ (save_file w d wo).fileLabel = w.fileLabel
    ∧ (open_file w (.error e) ro).fileLabel = w.fileLabel
    ∧ (open_file w (.ok none) ro).fileLabel = w.fileLabel
    ∧ (open_file w (.ok (some p)) (.error e)).fileLabel = w.fileLabel
    ∧ (open_file w (.ok (some p)) (.ok "hello")).fileLabel
        = labelFor w.editor.current_file_path
    ∧ (new_file w (.error e)).fileLabel = w.fileLabel
    ∧ (new_file w (.ok none)).fileLabel = w.fileLabel
    ∧ (new_file w (.ok (some p))).fileLabel
        = labelFor w.editor.current_file_path := by
  have hcore : ∀ dq : Option String, (save_as_core w dq wo).fileLabel = w.fileLabel := by
    intro dq
    cases dq with
    | none => rfl
    | some q => cases wo with
      | error eq => rfl
      | ok u => rfl
  have hok : w'.fileLabel = w.fileLabel := by
    cases d with
    | error eq => exact absurd hsa (by simp [save_as_file])
    | ok dq =>
      simp only [save_as_file, Except.ok.injEq] at hsa
      rw [← hsa]
      exact hcore dq
  refine ⟨hok, hcore dp, ?_, rfl, rfl, rfl, rfl, rfl, rfl, rfl⟩
  by_cases hp : w.editor.current_file_path = ""
  · rw [save_file.eq_def, if_pos hp]
    cases d with
    | error eq => rfl
    | ok dq => exact hcore dq
  · rw [save_file.eq_def, if_neg hp]
    cases wo with
    | error eq => rfl
    | ok u => rfl

/-- Witness for C10's amended theorem, at a concrete world with current
file "a.txt" and a Save As to "b.txt". -/
theorem file_label_only_on_textChanged_witness :
    save_as_file { initWorld with
        editor := { text := "x", current_file_path := "a.txt" } }
        (.ok (some "b.txt")) (.ok ())
      = .ok (save_as_core { initWorld with
          editor := { text := "x", current_file_path := "a.txt" } }
          (some "b.txt") (.ok ()))
    ∧ (save_as_core { initWorld with
          editor := { text := "x", current_file_path := "a.txt" } }
          (some "b.txt") (.ok ())).fileLabel
        = ({ initWorld with
            editor := { text := "x", current_file_path := "a.txt" } } : World).fileLabel :=
  ⟨rfl,
   (file_label_only_on_textChanged
      { initWorld with editor := { text := "x", current_file_path := "a.txt" } }
      "b.txt" "boom" (.ok (some "b.txt")) (some "b.txt") (.ok "y") (.ok ())
      (save_as_core { initWorld with
          editor := { text := "x", current_file_path := "a.txt" } }
          (some "b.txt") (.ok ()))
      rfl).1⟩

end Gapp
